import Mathlib

/-
  Verification of the offer inventory and reservation engine of the
  est-backend catalog service.

  The embedding follows src/services/catalog/src/domain/offer.py
  (Money, OfferStatus, Offer and its methods) and the reservation use
  case in src/services/catalog/src/services/offers.py.

  Modelling conventions:
  - Python timezone-aware datetimes are modelled as integers (an instant
    on a single global timeline); ensure_tzaware is the identity, since
    every modelled instant is timezone-aware by construction.
  - Python Decimal values are exact decimal numbers; they are modelled as
    an integer mantissa at a decimal scale (mantissa / 10 ^ scale).  A
    Decimal already quantized to 2 places is stored as its integer number
    of hundredths (cents).
  - Python ints are modelled as Int (they are unbounded).
  - Mutating methods become functions from the offer to a pair of the
    resulting offer and an optional raised domain error; when a method
    raises after already mutating, the returned offer carries those
    mutations, matching Python in-place semantics.
  - UUIDs are opaque identifiers, modelled as Nat.
-/

namespace Catalog

/-- An instant on the global timeline (a timezone-aware datetime). -/
abbrev Time := Int

/-- The domain error taxonomy of domain/offer.py (DomainError subclasses). -/
inductive DomainError where
  | validationError
  | notAvailableError
  | insufficientQuantityError
deriving DecidableEq, Repr

/-- An exact decimal number, mantissa times 10 ^ (-scale): the value set
of Python Decimal.  The Decimal 0.005 is ⟨5, 3⟩, the Decimal 12.34 is
⟨1234, 2⟩. -/
structure Dec where
  mantissa : Int
  scale : Nat
deriving DecidableEq, Repr

/-- The rational value of an exact decimal. -/
def Dec.toRat (d : Dec) : ℚ :=
  (d.mantissa : ℚ) / 10 ^ d.scale

/-- Rounding of the fraction num / den (den positive) to the nearest
integer with ties away from zero, as Python Decimal ROUND_HALF_UP does. -/
def roundHalfUpDiv (num den : Int) : Int :=
  if 0 ≤ num then (2 * num + den) / (2 * den)
  else -((2 * -num + den) / (2 * den))

/-- quantize_money from domain/offer.py: quantize a Decimal to 2 decimal
places rounding half up; the result is returned as its integer number of
hundredths. -/
def quantize_money (amount : Dec) : Int :=
  if amount.scale ≤ 2 then amount.mantissa * 10 ^ (2 - amount.scale)
  else roundHalfUpDiv amount.mantissa (10 ^ (amount.scale - 2))

/-- Python str.strip: drop leading and trailing whitespace. -/
def pyStrip (s : String) : String :=
  String.mk (((s.data.dropWhile Char.isWhitespace).reverse.dropWhile Char.isWhitespace).reverse)

/-- Python str.lower, character by character. -/
def pyLower (s : String) : String :=
  String.mk (s.data.map Char.toLower)

/-- Python str.upper, character by character. -/
def pyUpper (s : String) : String :=
  String.mk (s.data.map Char.toUpper)

/-- The Money value object after construction: the amount is a Decimal
with exactly 2 decimal places, stored as its integer number of
hundredths, together with a currency code string. -/
structure Money where
  amount : Int
  currency : String
deriving DecidableEq, Repr

/-- Money construction (Money.__post_init__ from domain/offer.py):
rejects a negative amount, then rejects an empty currency or one whose
length is not 3; otherwise stores the amount quantized to 2 decimals
and the currency upper-cased. -/
def Money.create (amount : Dec) (currency : String) : Except DomainError Money :=
  if amount.mantissa < 0 then .error .validationError
  else if currency = "" ∨ currency.length ≠ 3 then .error .validationError
  else .ok ⟨quantize_money amount, pyUpper currency⟩

/-- OfferStatus from domain/offer.py. -/
inductive OfferStatus where
  | draft
  | active
  | paused
  | sold_out
  | expired
  | cancelled
deriving DecidableEq, Repr

/-- The Offer aggregate (dataclass Offer from domain/offer.py). -/
structure Offer where
  id : Nat
  place_id : Nat
  title : String
  description : String
  original_price : Money
  price : Money
  quantity_total : Int
  quantity_available : Int
  pickup_start : Time
  pickup_end : Time
  status : OfferStatus
  tags : List String
  allergens : List String
  image_urls : List String
  created_at : Time
  updated_at : Time
  expires_at : Option Time
deriving DecidableEq, Repr

/-- Offer._touch: set updated_at to the caller-supplied now, falling back
to the current wall clock (utcnow) when the caller passed none. -/
def Offer.touch (o : Offer) (now : Option Time) (wall : Time) : Offer :=
  { o with updated_at := now.getD wall }

/-- Offer.is_expired: strictly past expires_at when set, else strictly
past pickup_end. -/
def Offer.is_expired (o : Offer) (now : Time) : Bool :=
  match o.expires_at with
  | some e => decide (e < now)
  | none => decide (o.pickup_end < now)

/-- The effective deadline of an offer: expires_at if set, else
pickup_end. -/
def Offer.effectiveDeadline (o : Offer) : Time :=
  o.expires_at.getD o.pickup_end

/-- Offer.refresh_time_status: unless the status is cancelled or
sold_out, transition an expired offer to expired and touch updated_at. -/
def Offer.refresh_time_status (o : Offer) (now : Time) : Offer :=
  if o.status ≠ .cancelled ∧ o.status ≠ .sold_out then
    if o.is_expired now then { o with status := .expired, updated_at := now }
    else o
  else o

/-- Offer.is_in_pickup_window from domain/offer.py. -/
def Offer.is_in_pickup_window (o : Offer) (now : Time) : Bool :=
  decide (o.pickup_start ≤ now ∧ now ≤ o.pickup_end)

/-- Offer.can_reserve: the pure reservability predicate. -/
def Offer.can_reserve (o : Offer) (qty : Int) (now : Time) : Bool :=
  if qty ≤ 0 then false
  else if o.status ≠ .active then false
  else if o.is_expired now then false
  else if o.pickup_end < now then false
  else decide (qty ≤ o.quantity_available)

/-- Offer.reserve from domain/offer.py: refresh the time-derived status
first, then check qty, status, expiry and quantity in order; on success
decrement quantity_available, flip to sold_out when it reaches 0, and
touch updated_at. -/
def Offer.reserve (o : Offer) (qty : Int) (now : Time) : Offer × Option DomainError :=
  let o1 := o.refresh_time_status now
  if qty ≤ 0 then (o1, some .validationError)
  else if o1.status ≠ .active then (o1, some .notAvailableError)
  else if o1.is_expired now then (o1, some .notAvailableError)
  else if o1.quantity_available < qty then (o1, some .insufficientQuantityError)
  else
    let q := o1.quantity_available - qty
    ({ o1 with quantity_available := q,
               status := if q = 0 then .sold_out else o1.status,
               updated_at := now }, none)

/-- Offer.release from domain/offer.py: check qty, then forbid release
into cancelled or expired; otherwise add qty capped at quantity_total,
revert sold_out to active when stock became positive, and touch
updated_at. -/
def Offer.release (o : Offer) (qty : Int) (now : Time) : Offer × Option DomainError :=
  if qty ≤ 0 then (o, some .validationError)
  else if o.status = .cancelled ∨ o.status = .expired then (o, some .notAvailableError)
  else
    let q := min o.quantity_total (o.quantity_available + qty)
    ({ o with quantity_available := q,
              status := if o.status = .sold_out ∧ 0 < q then .active else o.status,
              updated_at := now }, none)

/-- List normalization used by Offer._validate on tags and allergens:
drop blank entries, strip and lower-case the rest. -/
def normalizeTagList (ss : List String) : List String :=
  (ss.filter fun t => pyStrip t ≠ "").map fun t => pyLower (pyStrip t)

/-- List normalization used by Offer._validate on image_urls:
drop blank entries and strip the rest (no lower-casing). -/
def normalizeUrlList (ss : List String) : List String :=
  (ss.filter fun u => pyStrip u ≠ "").map fun u => pyStrip u

/-- The checks performed by Offer._validate, in source order. -/
def Offer.Valid (o : Offer) : Prop :=
  o.title ≠ "" ∧ 3 ≤ (pyStrip o.title).length ∧ o.title.length ≤ 120 ∧
  o.description.length ≤ 2000 ∧
  0 < o.quantity_total ∧
  0 ≤ o.quantity_available ∧ o.quantity_available ≤ o.quantity_total ∧
  o.pickup_start < o.pickup_end ∧
  (∀ e, o.expires_at = some e → o.pickup_start ≤ e) ∧
  0 < o.price.amount ∧
  0 < o.original_price.amount ∧
  o.price.currency = o.original_price.currency ∧
  o.price.amount ≤ o.original_price.amount

instance (o : Offer) : Decidable o.Valid := by
  unfold Offer.Valid
  have : Decidable (∀ e, o.expires_at = some e → o.pickup_start ≤ e) := by
    cases h : o.expires_at with
    | none => exact .isTrue (by simp [h])
    | some e =>
        cases Int.decLe o.pickup_start e with
        | isTrue hle => exact .isTrue (by simpa [h] using hle)
        | isFalse hlt => exact .isFalse (by simpa [h] using hlt)
  exact inferInstance

/-- The mutation half of Offer._validate: normalize the list fields
(ensure_tzaware is the identity in this model). -/
def Offer.normalize (o : Offer) : Offer :=
  { o with tags := normalizeTagList o.tags,
           allergens := normalizeTagList o.allergens,
           image_urls := normalizeUrlList o.image_urls }

/-- Offer._validate: raise ValidationError when a check fails (all
raising checks precede the list normalization), else normalize. -/
def Offer.validate (o : Offer) : Offer × Option DomainError :=
  if o.Valid then (o.normalize, none) else (o, some .validationError)

/-- Offer.activate: validate, forbid activation from cancelled or
expired, else set status to active and touch updated_at. -/
def Offer.activate (o : Offer) (now : Option Time) (wall : Time) : Offer × Option DomainError :=
  match o.validate with
  | (o1, some e) => (o1, some e)
  | (o1, none) =>
      if o1.status = .cancelled ∨ o1.status = .expired then (o1, some .notAvailableError)
      else ({ o1 with status := .active }.touch now wall, none)

/-- Offer.pause: only an active offer becomes paused; otherwise no-op. -/
def Offer.pause (o : Offer) (now : Option Time) (wall : Time) : Offer × Option DomainError :=
  if o.status = .active then ({ o with status := .paused }.touch now wall, none)
  else (o, none)

/-- Offer.cancel: unconditionally set status to cancelled and touch. -/
def Offer.cancel (o : Offer) (now : Option Time) (wall : Time) : Offer × Option DomainError :=
  ({ o with status := .cancelled }.touch now wall, none)

namespace OfferService

/-- OfferService.reserve_offer from services/offers.py, applied to an
already-loaded offer row: run the domain reserve; when it raises, the
error is re-raised unchanged and nothing is saved; when it succeeds, the
returned offer is what repo.save persists and db.commit makes durable.
The session takes no row lock and checks no version. -/
def reserve_offer (loaded : Offer) (quantity : Int) (now : Time) :
    Offer × Option DomainError :=
  Offer.reserve loaded quantity now

/-- Two callers race reserve_offer on the same stored offer row, in the
interleaving where both sessions load the row before either commits
(nothing in repo/offers_repo.py or services/offers.py prevents it:
save is a plain upsert with no version column or lock). Caller 1
commits first, caller 2 commits last; a caller whose domain call raised
saves nothing. Returns both outcomes and the final stored row. -/
def reserve_offer_race (stored : Offer) (q1 q2 : Int) (now : Time) :
    Option DomainError × Option DomainError × Offer :=
  let a := reserve_offer stored q1 now
  let b := reserve_offer stored q2 now
  (a.2, b.2, if b.2 = none then b.1 else if a.2 = none then a.1 else stored)

end OfferService

/-- A concrete valid offer: active, 5 of 5 units available, pickup
window from 0 to 100, no explicit expires_at, priced 5 RUB against an
original 10 RUB. -/
def offer5 : Offer :=
  { id := 1
    place_id := 1
    title := "Bread box"
    description := ""
    original_price := ⟨1000, "RUB"⟩
    price := ⟨500, "RUB"⟩
    quantity_total := 5
    quantity_available := 5
    pickup_start := 0
    pickup_end := 100
    status := .active
    tags := []
    allergens := []
    image_urls := []
    created_at := 0
    updated_at := 0
    expires_at := none }

/-- The same offer with nothing left on the shelf but still in status
active (reachable, for instance, by re-activating a sold-out offer). -/
def offerZeroActive : Offer :=
  { offer5 with quantity_available := 0 }

/-- The same offer sold out with zero availability. -/
def offerSoldOut : Offer :=
  { offer5 with status := .sold_out, quantity_available := 0 }

/-- The same offer still in draft. -/
def offerDraft : Offer :=
  { offer5 with status := .draft }

/-- Reference definition of reserve written from the spec's numbered
step list (refresh the time-derived status; ValidationError when qty is
not positive; NotAvailableError when the status is not active or the
offer is expired; InsufficientQuantityError when demand exceeds
availability; else decrement, flip to sold_out exactly when the new
availability is 0, and update updated_at to now). -/
def Offer.reserveSpec (o : Offer) (qty : Int) (now : Time) : Offer × Option DomainError :=
  let o1 := o.refresh_time_status now
  if qty ≤ 0 then (o1, some .validationError)
  else if o1.status ≠ .active ∨ o1.is_expired now then (o1, some .notAvailableError)
  else if o1.quantity_available < qty then (o1, some .insufficientQuantityError)
  else ({ o1 with quantity_available := o1.quantity_available - qty,
                  status := if o1.quantity_available - qty = 0 then .sold_out
                            else .active,
                  updated_at := now }, none)

/-- Reference definition of release written from the spec's words
(ValidationError when qty is not positive; NotAvailableError when the
status is cancelled or expired; else increment capped at quantity_total,
revert sold_out to active when availability becomes positive, update
updated_at). -/
def Offer.releaseSpec (o : Offer) (qty : Int) (now : Time) : Offer × Option DomainError :=
  if qty ≤ 0 then (o, some .validationError)
  else if o.status = .cancelled ∨ o.status = .expired then (o, some .notAvailableError)
  else
    ({ o with quantity_available := min o.quantity_total (o.quantity_available + qty),
              status := if o.status = .sold_out ∧
                           0 < min o.quantity_total (o.quantity_available + qty)
                        then .active else o.status,
              updated_at := now }, none)

/-- The invariants of the spec's invariant-preservation property:
availability within bounds, matching currencies, discounted price not
above the original. -/
def Offer.CoreInv (o : Offer) : Prop :=
  0 ≤ o.quantity_available ∧ o.quantity_available ≤ o.quantity_total ∧
  o.price.currency = o.original_price.currency ∧
  o.price.amount ≤ o.original_price.amount

/-- refresh_time_status is the identity on an offer that is not expired
at now. -/
theorem refresh_of_not_expired (o : Offer) (now : Time)
    (h : o.is_expired now = false) : o.refresh_time_status now = o := by
  unfold Offer.refresh_time_status
  split_ifs with h1 h2
  · rw [h] at h2; cases h2
  · rfl
  · rfl

/-- refresh_time_status never changes the quantities or the prices. -/
theorem refresh_fields (o : Offer) (now : Time) :
    (o.refresh_time_status now).quantity_available = o.quantity_available ∧
    (o.refresh_time_status now).quantity_total = o.quantity_total ∧
    (o.refresh_time_status now).price = o.price ∧
    (o.refresh_time_status now).original_price = o.original_price ∧
    (o.refresh_time_status now).expires_at = o.expires_at ∧
    (o.refresh_time_status now).pickup_end = o.pickup_end := by
  unfold Offer.refresh_time_status
  split_ifs <;> simp

/-- C1: for every offer, integer qty and timezone-aware instant now,
reserve first refreshes the time-derived status, then raises
ValidationError on non-positive qty, then NotAvailableError when the
status is not active or the offer is expired at now, then
InsufficientQuantityError when availability is below qty, and otherwise
decrements availability by qty, flips the status to sold_out exactly
when the new availability is 0, and updates updated_at — i.e. reserve
coincides with the step list of the spec. -/
theorem reserve_follows_spec_steps (o : Offer) (qty : Int) (now : Time) :
    o.reserve qty now = o.reserveSpec qty now := by
  unfold Offer.reserve Offer.reserveSpec
  by_cases h1 : qty ≤ 0
  · simp [h1]
  · by_cases h2 : (o.refresh_time_status now).status = .active
    · by_cases h3 : (o.refresh_time_status now).is_expired now
      · simp [h1, h2, h3]
      · simp [h1, h2, h3]
    · simp [h1, h2]

/-- C6: for every offer, release raises ValidationError on non-positive
qty, raises NotAvailableError when the status is cancelled or expired,
and otherwise increments availability by qty capped at quantity_total,
reverts sold_out to active when availability becomes positive, and
updates updated_at — i.e. release coincides with the spec's wording. -/
theorem release_follows_spec (o : Offer) (qty : Int) (now : Time) :
    o.release qty now = o.releaseSpec qty now := rfl

/-- C7: an offer is expired at now exactly when now is strictly past
the effective deadline (expires_at if set, else pickup_end), and
refresh_time_status transitions to expired from any status except
cancelled and sold_out when that condition holds, leaving the offer
unchanged otherwise. -/
theorem is_expired_deadline_and_refresh (o : Offer) (now : Time) :
    (o.is_expired now = true ↔ o.effectiveDeadline < now) ∧
    (o.refresh_time_status now =
      if o.status ≠ .cancelled ∧ o.status ≠ .sold_out ∧ o.is_expired now = true
      then { o with status := .expired, updated_at := now }
      else o) := by
  constructor
  · unfold Offer.is_expired Offer.effectiveDeadline
    cases o.expires_at <;> simp
  · unfold Offer.refresh_time_status
    by_cases h1 : o.status ≠ .cancelled ∧ o.status ≠ .sold_out <;>
      by_cases h2 : o.is_expired now <;>
        simp [h1, h2]

/-- C2: on an offer with 5 available, two reserve_offer(3) calls racing
through the service layer in the interleaving where both sessions load
the row before either commits BOTH succeed, and the stored availability
ends at 2 rather than reflecting the 6 units sold from a stock of 5:
the claimed exactly-one-success guarantee does not hold in the code,
which has no version check, row lock or ConflictError retry at all. -/
theorem reserve_offer_race_oversells :
    offer5.quantity_available = 5 ∧
    offer5.quantity_available < 3 + 3 ∧
    OfferService.reserve_offer_race offer5 3 3 10 =
      (none, none, { offer5 with quantity_available := 2, updated_at := 10 }) := by
  refine ⟨rfl, by decide, ?_⟩
  rfl

/-- C4 counterexample: an active, non-expired offer with zero
availability (reachable by re-activating a sold-out offer) refutes the
claim as stated: reserve(quantity_available) = reserve(0) raises
ValidationError instead of succeeding. -/
theorem reserve_full_availability_fails_at_zero :
    offerZeroActive.status = .active ∧
    offerZeroActive.is_expired 10 = false ∧
    (offerZeroActive.reserve offerZeroActive.quantity_available 10).2 =
      some .validationError := by decide

/-- C4 amended: for every valid active, non-expired offer, when
quantity_available is positive, reserve(quantity_available) succeeds,
exhausts the stock and flips the status to sold_out; and
reserve(quantity_available + 1) always raises
InsufficientQuantityError and leaves the offer completely unchanged. -/
theorem reserve_boundary (o : Offer) (now : Time)
    (hv : o.Valid) (hs : o.status = .active) (he : o.is_expired now = false) :
    (0 < o.quantity_available →
      (o.reserve o.quantity_available now).2 = none ∧
      (o.reserve o.quantity_available now).1.quantity_available = 0 ∧
      (o.reserve o.quantity_available now).1.status = .sold_out) ∧
    (o.reserve (o.quantity_available + 1) now).2 =
      some .insufficientQuantityError ∧
    (o.reserve (o.quantity_available + 1) now).1 = o := by
  have hr : o.refresh_time_status now = o := refresh_of_not_expired o now he
  obtain ⟨-, -, -, -, -, hqa0, -, -⟩ := hv
  unfold Offer.reserve
  rw [hr]
  refine ⟨fun hpos => ?_, ?_, ?_⟩
  · rw [if_neg (by omega), if_neg (by simp [hs]), if_neg (by simp [he]),
      if_neg (by omega)]
    simp
  · rw [if_neg (by omega), if_neg (by simp [hs]), if_neg (by simp [he]),
      if_pos (by omega)]
  · rw [if_neg (by omega), if_neg (by simp [hs]), if_neg (by simp [he]),
      if_pos (by omega)]

/-- C4 witness: the amended boundary property instantiated on the
concrete valid offer with 5 of 5 units available at instant 10. -/
theorem reserve_boundary_witness :
    (offer5.Valid ∧ offer5.status = .active ∧ offer5.is_expired 10 = false) ∧
    ((0 < offer5.quantity_available →
       (offer5.reserve offer5.quantity_available 10).2 = none ∧
       (offer5.reserve offer5.quantity_available 10).1.quantity_available = 0 ∧
       (offer5.reserve offer5.quantity_available 10).1.status = .sold_out) ∧
     (offer5.reserve (offer5.quantity_available + 1) 10).2 =
       some .insufficientQuantityError ∧
     (offer5.reserve (offer5.quantity_available + 1) 10).1 = offer5) :=
  ⟨⟨by decide, by decide, by decide⟩,
   reserve_boundary offer5 10 (by decide) (by decide) (by decide)⟩

/-- C5: for every valid active offer not expired at now and any qty with
0 < qty ≤ quantity_available, reserve(qty, now) succeeds and an
immediately following release(qty, now2) — the offer not having passed
its effective deadline in between — succeeds and restores
quantity_available to its pre-reserve value and the status to its
pre-reserve value, active. -/
theorem reserve_then_release_restores (o : Offer) (qty : Int) (now now2 : Time)
    (hv : o.Valid) (hs : o.status = .active)
    (he : o.is_expired now = false) (he2 : o.is_expired now2 = false)
    (hq : 0 < qty) (hle : qty ≤ o.quantity_available) :
    (o.reserve qty now).2 = none ∧
    ((o.reserve qty now).1.release qty now2).2 = none ∧
    ((o.reserve qty now).1.release qty now2).1.quantity_available =
      o.quantity_available ∧
    ((o.reserve qty now).1.release qty now2).1.status = o.status := by
  have hr : o.refresh_time_status now = o := refresh_of_not_expired o now he
  obtain ⟨-, -, -, -, -, hqa0, hqale, -⟩ := hv
  have hq' : ¬ qty ≤ 0 := by omega
  by_cases h0 : o.quantity_available - qty = 0
  · have hres : o.reserve qty now =
        ({ o with quantity_available := o.quantity_available - qty,
                  status := .sold_out, updated_at := now }, none) := by
      unfold Offer.reserve
      rw [hr, if_neg (by omega), if_neg (by simp [hs]), if_neg (by simp [he]),
        if_neg (by omega)]
      simp [h0]
    rw [hres]
    refine ⟨rfl, ?_⟩
    simp [Offer.release, hq', hs]
    omega
  · have hres : o.reserve qty now =
        ({ o with quantity_available := o.quantity_available - qty,
                  status := o.status, updated_at := now }, none) := by
      unfold Offer.reserve
      rw [hr, if_neg (by omega), if_neg (by simp [hs]), if_neg (by simp [he]),
        if_neg (by omega)]
      simp [h0]
    rw [hres]
    refine ⟨rfl, ?_⟩
    simp [Offer.release, hq', hs]
    omega

/-- C5 witness: the round-trip property instantiated on the concrete
valid offer, reserving 3 of 5 at instant 10 and releasing at 20. -/
theorem reserve_then_release_restores_witness :
    (offer5.Valid ∧ offer5.status = .active ∧ offer5.is_expired 10 = false ∧
     offer5.is_expired 20 = false ∧ (0:Int) < 3 ∧
     (3:Int) ≤ offer5.quantity_available) ∧
    ((offer5.reserve 3 10).2 = none ∧
     ((offer5.reserve 3 10).1.release 3 20).2 = none ∧
     ((offer5.reserve 3 10).1.release 3 20).1.quantity_available =
       offer5.quantity_available ∧
     ((offer5.reserve 3 10).1.release 3 20).1.status = offer5.status) :=
  ⟨⟨by decide, by decide, by decide, by decide, by decide, by decide⟩,
   reserve_then_release_restores offer5 3 10 20 (by decide) (by decide)
     (by decide) (by decide) (by decide) (by decide)⟩

/-- C3: for every validly constructed offer, after each domain
operation (activate, pause, cancel, refresh_time_status, reserve,
release) that returns without raising, the core invariants still hold:
0 ≤ quantity_available ≤ quantity_total, the price and original_price
currencies agree, and price.amount ≤ original_price.amount. -/
theorem ops_preserve_core_invariants (o : Offer) (qty : Int) (now : Time)
    (onow : Option Time) (wall : Time) (hv : o.Valid) :
    ((o.activate onow wall).2 = none → (o.activate onow wall).1.CoreInv) ∧
    ((o.pause onow wall).2 = none → (o.pause onow wall).1.CoreInv) ∧
    ((o.cancel onow wall).2 = none → (o.cancel onow wall).1.CoreInv) ∧
    (o.refresh_time_status now).CoreInv ∧
    ((o.reserve qty now).2 = none → (o.reserve qty now).1.CoreInv) ∧
    ((o.release qty now).2 = none → (o.release qty now).1.CoreInv) := by
  have hv2 : o.Valid := hv
  obtain ⟨-, -, -, -, hqt, hqa0, hqale, -, -, -, -, hcur, hple⟩ := hv2
  have hci : o.CoreInv := ⟨hqa0, hqale, hcur, hple⟩
  refine ⟨?_, ?_, ?_, ?_, ?_, ?_⟩
  · intro h
    unfold Offer.activate Offer.validate at *
    rw [if_pos hv] at *
    simp only [Offer.touch, Offer.normalize, Offer.CoreInv] at *
    split_ifs at * <;> simp_all [Offer.CoreInv]
  · intro h
    unfold Offer.pause at *
    split_ifs at * <;> simp_all [Offer.CoreInv, Offer.touch]
  · intro h
    unfold Offer.cancel at *
    simp_all [Offer.CoreInv, Offer.touch]
  · unfold Offer.refresh_time_status
    split_ifs <;> simp_all [Offer.CoreInv]
  · intro h
    obtain ⟨hfa, hft, hfp, hfo, -, -⟩ := refresh_fields o now
    unfold Offer.reserve at h ⊢
    by_cases h1 : qty ≤ 0
    · rw [if_pos h1] at h; simp at h
    rw [if_neg h1] at h ⊢
    by_cases h2 : (o.refresh_time_status now).status ≠ OfferStatus.active
    · rw [if_pos h2] at h; simp at h
    rw [if_neg h2] at h ⊢
    by_cases h3 : (o.refresh_time_status now).is_expired now = true
    · simp only [h3, if_true] at h; simp at h
    rw [if_neg h3] at h ⊢
    by_cases h4 : (o.refresh_time_status now).quantity_available < qty
    · rw [if_pos h4] at h; simp at h
    rw [if_neg h4]
    refine ⟨?_, ?_, ?_, ?_⟩ <;>
      simp only [Offer.CoreInv, hfa, hft, hfp, hfo] <;>
      first
        | omega
        | assumption
  · intro h
    unfold Offer.release at h ⊢
    by_cases h1 : qty ≤ 0
    · rw [if_pos h1] at h; simp at h
    rw [if_neg h1] at h ⊢
    by_cases h2 : o.status = .cancelled ∨ o.status = .expired
    · rw [if_pos h2] at h; simp at h
    rw [if_neg h2]
    refine ⟨?_, ?_, ?_, ?_⟩ <;>
      simp only [Offer.CoreInv] <;>
      first
        | omega
        | assumption

/-- C3 witness: the invariant-preservation property instantiated on the
concrete valid offer, with reserve and release of 3 units at instant 10
and lifecycle calls with explicit now 7. -/
theorem ops_preserve_core_invariants_witness :
    offer5.Valid ∧
    (((offer5.activate (some 7) 0).2 = none →
        (offer5.activate (some 7) 0).1.CoreInv) ∧
     ((offer5.pause (some 7) 0).2 = none →
        (offer5.pause (some 7) 0).1.CoreInv) ∧
     ((offer5.cancel (some 7) 0).2 = none →
        (offer5.cancel (some 7) 0).1.CoreInv) ∧
     (offer5.refresh_time_status 10).CoreInv ∧
     ((offer5.reserve 3 10).2 = none → (offer5.reserve 3 10).1.CoreInv) ∧
     ((offer5.release 3 10).2 = none → (offer5.release 3 10).1.CoreInv)) :=
  ⟨by decide, ops_preserve_core_invariants offer5 3 10 (some 7) 0 (by decide)⟩

/-- C10: for every valid offer whose status is draft, active, paused or
sold_out, activate succeeds and unconditionally sets the status to
active while leaving quantity_available untouched — in particular a
sold-out offer with zero availability becomes active with zero
availability. -/
theorem activate_from_any_nonterminal (o : Offer) (onow : Option Time)
    (wall : Time) (hv : o.Valid)
    (hs : o.status = .draft ∨ o.status = .active ∨ o.status = .paused ∨
          o.status = .sold_out) :
    (o.activate onow wall).2 = none ∧
    (o.activate onow wall).1.status = .active ∧
    (o.activate onow wall).1.quantity_available = o.quantity_available := by
  unfold Offer.activate Offer.validate
  rw [if_pos hv]
  simp only []
  rw [if_neg (by rcases hs with h|h|h|h <;> simp [Offer.normalize, h])]
  exact ⟨rfl, rfl, rfl⟩

/-- C10 witness: activating the concrete sold-out offer with zero
availability yields an active offer with zero availability. -/
theorem activate_from_any_nonterminal_witness :
    (offerSoldOut.Valid ∧
     (offerSoldOut.status = .draft ∨ offerSoldOut.status = .active ∨
      offerSoldOut.status = .paused ∨ offerSoldOut.status = .sold_out)) ∧
    ((offerSoldOut.activate (some 7) 0).2 = none ∧
     (offerSoldOut.activate (some 7) 0).1.status = .active ∧
     (offerSoldOut.activate (some 7) 0).1.quantity_available =
       offerSoldOut.quantity_available) :=
  ⟨⟨by decide, by decide⟩,
   activate_from_any_nonterminal offerSoldOut (some 7) 0 (by decide) (by decide)⟩

/-- C9 counterexample: activate called without an explicit now (its
Python default) reads the wall clock internally — two runs from the
same offer state with the same arguments but different ambient clock
values produce different updated_at values and different states,
refuting the claimed never-reads-the-wall-clock determinism. -/
theorem activate_without_now_reads_wall_clock :
    (offerDraft.activate none 1).1.updated_at = 1 ∧
    (offerDraft.activate none 2).1.updated_at = 2 ∧
    offerDraft.activate none 1 ≠ offerDraft.activate none 2 := by decide

/-- C9 amended: every status transition called with an explicit now
sets updated_at to exactly that value and is independent of the wall
clock, hence deterministic; only activate, pause and cancel called
with now omitted fall back to the wall clock (reserve, release and
refresh_time_status always require now). -/
theorem transitions_set_updated_at_deterministically (o : Offer)
    (t w w2 : Time) (qty : Int) (now now2 : Time)
    (hv : o.Valid) (hact : o.status = .active)
    (hres : (o.reserve qty now).2 = none)
    (hrefresh : o.refresh_time_status now2 ≠ o) :
    (o.activate (some t) w = o.activate (some t) w2 ∧
     o.pause (some t) w = o.pause (some t) w2 ∧
     o.cancel (some t) w = o.cancel (some t) w2) ∧
    ((o.activate (some t) w).1.updated_at = t ∧
     (o.pause (some t) w).1.updated_at = t ∧
     (o.cancel (some t) w).1.updated_at = t) ∧
    (o.reserve qty now).1.updated_at = now ∧
    ((o.release qty now).2 = none ∧ (o.release qty now).1.updated_at = now) ∧
    (o.refresh_time_status now2).updated_at = now2 := by
  have hq : ¬ qty ≤ 0 := by
    intro hle
    unfold Offer.reserve at hres
    rw [if_pos hle] at hres
    simp at hres
  have hrel : o.release qty now =
      ({ o with quantity_available :=
                  min o.quantity_total (o.quantity_available + qty),
                status := o.status, updated_at := now }, none) := by
    unfold Offer.release
    rw [if_neg hq, if_neg (by simp [hact])]
    simp [hact]
  refine ⟨⟨?_, ?_, ?_⟩, ⟨?_, ?_, ?_⟩, ?_, ?_, ?_⟩
  · rfl
  · rfl
  · rfl
  · unfold Offer.activate Offer.validate
    rw [if_pos hv]
    simp only []
    rw [if_neg (by simp [Offer.normalize, hact])]
    rfl
  · unfold Offer.pause
    rw [if_pos hact]
    rfl
  · rfl
  · unfold Offer.reserve at hres ⊢
    rw [if_neg hq] at hres ⊢
    by_cases h2 : (o.refresh_time_status now).status ≠ OfferStatus.active
    · rw [if_pos h2] at hres; simp at hres
    rw [if_neg h2] at hres ⊢
    by_cases h3 : (o.refresh_time_status now).is_expired now = true
    · simp only [h3, if_true] at hres; simp at hres
    rw [if_neg h3] at hres ⊢
    by_cases h4 : (o.refresh_time_status now).quantity_available < qty
    · rw [if_pos h4] at hres; simp at hres
    rw [if_neg h4]
  · rw [hrel]
    exact ⟨rfl, rfl⟩
  · unfold Offer.refresh_time_status at hrefresh ⊢
    split_ifs at hrefresh ⊢ with ha hb
    · rfl
    · exact absurd rfl hrefresh
    · exact absurd rfl hrefresh

/-- C9 witness: the amended determinism property instantiated on the
concrete active offer with explicit now 7 against wall clocks 1 and 2,
a successful reserve at 10 and a status-changing refresh at 200. -/
theorem transitions_deterministic_witness :
    (offer5.Valid ∧ offer5.status = .active ∧ (offer5.reserve 3 10).2 = none ∧
     offer5.refresh_time_status 200 ≠ offer5) ∧
    ((offer5.activate (some 7) 1 = offer5.activate (some 7) 2 ∧
      offer5.pause (some 7) 1 = offer5.pause (some 7) 2 ∧
      offer5.cancel (some 7) 1 = offer5.cancel (some 7) 2) ∧
     ((offer5.activate (some 7) 1).1.updated_at = 7 ∧
      (offer5.pause (some 7) 1).1.updated_at = 7 ∧
      (offer5.cancel (some 7) 1).1.updated_at = 7) ∧
     (offer5.reserve 3 10).1.updated_at = 10 ∧
     ((offer5.release 3 10).2 = none ∧
      (offer5.release 3 10).1.updated_at = 10) ∧
     (offer5.refresh_time_status 200).updated_at = 200) :=
  ⟨⟨by decide, by decide, by decide, by decide⟩,
   transitions_set_updated_at_deterministically offer5 7 1 2 3 10 200
     (by decide) (by decide) (by decide) (by decide)⟩

/-- C8 counterexample: the currency check only tests the length, not
letters: constructing Money with the all-digit currency "123" — not a
3-letter code — succeeds instead of raising ValidationError. -/
theorem money_create_accepts_non_letter_currency :
    Money.create ⟨100, 2⟩ "123" = .ok ⟨100, "123"⟩ ∧
    "123".data.all Char.isAlpha = false :=
  ⟨rfl, by decide⟩

/-- C8 amended: Money construction raises ValidationError exactly when
the amount is negative or the currency is empty or not exactly 3
characters long (letters are not required); on success the stored
amount is the input quantized half-up to 2 decimal places and the
stored currency is the input upper-cased. -/
theorem money_create_characterization (a : Dec) (c : String) :
    (Money.create a c = .error .validationError ↔
      (a.mantissa < 0 ∨ c = "" ∨ c.length ≠ 3)) ∧
    (¬ a.mantissa < 0 → ¬(c = "" ∨ c.length ≠ 3) →
      Money.create a c = .ok ⟨quantize_money a, pyUpper c⟩) := by
  unfold Money.create
  constructor
  · split_ifs with h1 h2
    · simp [h1]
    · simp [h2]
    · simp [h1, h2]
  · intro h1 h2
    rw [if_neg h1, if_neg h2]

/-- C8 witness: Decimal 0.005 with currency usd. -/
theorem money_create_characterization_witness :
    (¬ (Dec.mk 5 3).mantissa < 0 ∧ ¬("usd" = "" ∨ "usd".length ≠ 3)) ∧
    Money.create ⟨5, 3⟩ "usd" = .ok ⟨quantize_money ⟨5, 3⟩, pyUpper "usd"⟩ :=
  ⟨⟨by decide, by decide⟩,
   (money_create_characterization ⟨5, 3⟩ "usd").2 (by decide) (by decide)⟩

end Catalog
